import Mathlib

/-!
Verification of the halal-food-finder application core.

The backend actor (src/backend/main.mo) is modelled as pure state-passing
functions over an explicit `ProxyState`; `Time.now()` becomes an explicit
time parameter, the HTTP outcall becomes a parameter mapping the attempt
index to its outcome (`Except` models a thrown/caught Motoko error), and
`Runtime.trap` in query methods becomes `Except.error`.  The ordered
`Map` collections become association lists kept in key order.

The frontend (TypeScript) helpers are modelled with JavaScript semantics
made explicit: `x || y` on strings is "y when x is empty", `x || y` on
numbers is "y when x is 0", `x ?? y` on optionals is `Option.orElse`,
truthiness of an optional number is "present and nonzero".  Numbers are
real numbers (no NaN / floating point rounding is modelled), strings are
Lean strings.
-/

/-! Backend model: types and constants from src/backend/main.mo. -/

abbrev MoTime := Int

structure ErrorEntry where
  timestamp : MoTime
  message : String
deriving Repr, DecidableEq

structure CacheEntry where
  data : String
  timestamp : MoTime
deriving Repr, DecidableEq

structure RequestStats where
  totalRequests : Nat
  successfulRequests : Nat
  failedRequests : Nat
  lastErroredRequest : Option ErrorEntry
deriving Repr, DecidableEq

def retryLimit : Nat := 2

def maxConsecutiveErrors : Nat := 10

/-- Cache validity: 5 minutes in nanoseconds. -/
def cacheValidity : Int := 5 * 60 * 1000000000

def maxLogEntries : Nat := 100

/-- The actor state: `apiCache` and `errorLog` are the ordered maps of the
actor, kept as association lists in ascending key order (mo:core `Map`
iterates in key order). -/
structure ProxyState where
  apiCache : List (String × CacheEntry)
  errorLog : List (Nat × ErrorEntry)
  logCounter : Nat
  consecutiveErrors : Nat
  requestStats : RequestStats
deriving Repr, DecidableEq

def initialProxyState : ProxyState :=
  { apiCache := []
    errorLog := []
    logCounter := 0
    consecutiveErrors := 0
    requestStats :=
      { totalRequests := 0, successfulRequests := 0, failedRequests := 0
        lastErroredRequest := none } }

/-- Association-list write with `Map.add` semantics: overwrite the entry
with the same key if present, otherwise append. -/
def mapSet (m : List (String × CacheEntry)) (k : String) (v : CacheEntry) :
    List (String × CacheEntry) :=
  match m with
  | [] => [(k, v)]
  | (k', v') :: rest =>
    if k' = k then (k, v) :: rest else (k', v') :: mapSet rest k v

/-- clearErrorLog (main.mo lines 164-176): keep only entries newer than
24 hours at the current time. -/
def clearErrorLog (now : MoTime) (s : ProxyState) : ProxyState :=
  { s with errorLog :=
      s.errorLog.filter (fun e => now - e.2.timestamp < 24 * 3600 * 1000000000) }

/-- logError (main.mo lines 178-201).  After the time-based sweep, when
`logCounter` has reached `maxLogEntries` the code walks the entries and
removes the key of `entries[0]` each time it meets an entry whose
timestamp is strictly smaller than that of `entries[0]`; repeated removal
of one key equals a single conditional removal, which is how the loop is
rendered here.  Finally the new entry is appended under the current
counter (the counter exceeds every stored key, so appending keeps the key
order). -/
def logError (now : MoTime) (message : String) (s : ProxyState) : ProxyState :=
  let s1 := clearErrorLog now s
  let s2 :=
    if maxLogEntries ≤ s1.logCounter then
      match s1.errorLog with
      | [] => s1
      | oldest :: _ =>
        if s1.errorLog.any (fun e => e.2.timestamp < oldest.2.timestamp) then
          { s1 with errorLog := s1.errorLog.filter (fun e => e.1 ≠ oldest.1) }
        else s1
    else s1
  { s2 with
    errorLog := s2.errorLog ++ [(s2.logCounter, { timestamp := now, message := message })]
    logCounter := s2.logCounter + 1 }

/-- isCacheValid (main.mo lines 204-206). -/
def isCacheValid (now : MoTime) (entry : CacheEntry) : Bool :=
  now - entry.timestamp < cacheValidity

/-- updateCache (main.mo lines 208-214). -/
def updateCache (key data : String) (now : MoTime) (s : ProxyState) : ProxyState :=
  { s with apiCache := mapSet s.apiCache key { data := data, timestamp := now } }

/-- Result of one proxy call: the returned text, the final actor state and
the number of upstream attempts that were issued. -/
structure ProxyCallResult where
  response : String
  state : ProxyState
  attempts : Nat
deriving Repr, DecidableEq

/-- The retry loop of proxyExternalApiGet and proxyExternalApiPost
(main.mo lines 285-318 and 348-381).  `upstream i` is the outcome of the
i-th outcall (`Except.error m` models a caught exception with message m),
`times i` the value of `Time.now()` during that iteration, `mkMsg` builds
the per-attempt error message ("HTTP GET attempt i failed: m" for the GET
variant), and `exhaustedMsg` is the dead fall-back text of the final
switch.  On success the response is cached, the consecutive-error counter
reset and the stats bumped; on failure the error is logged, counters and
stats bumped, the counter reset at the threshold, and the loop retried
while `attempts <= retryLimit`.  On exhaustion the sentinel
`"Error: " # lastError.message` is returned as ordinary data. -/
def proxySuccessState (cacheKey response : String) (now : MoTime) (s : ProxyState) :
    ProxyState :=
  let s1 := updateCache cacheKey response now s
  let s2 := { s1 with consecutiveErrors := 0 }
  { s2 with requestStats :=
    { s2.requestStats with
      totalRequests := s2.requestStats.totalRequests + 1
      successfulRequests := s2.requestStats.successfulRequests + 1 } }

def proxyFailureState (now : MoTime) (errorMessage : String) (s : ProxyState) :
    ProxyState :=
  let errorEntry : ErrorEntry := { timestamp := now, message := errorMessage }
  let s1 := logError now errorMessage s
  let s2 := { s1 with consecutiveErrors := s1.consecutiveErrors + 1 }
  let s3 := { s2 with requestStats :=
    { s2.requestStats with
      totalRequests := s2.requestStats.totalRequests + 1
      failedRequests := s2.requestStats.failedRequests + 1
      lastErroredRequest := some errorEntry } }
  if maxConsecutiveErrors ≤ s3.consecutiveErrors then
    { s3 with consecutiveErrors := 0 }
  else s3

def proxyExhausted (exhaustedMsg : String) (lastError : Option ErrorEntry)
    (s : ProxyState) (attempts : Nat) : ProxyCallResult :=
  match lastError with
  | some err => { response := "Error: " ++ err.message, state := s, attempts := attempts }
  | none =>
    let s1 := { s with requestStats :=
      { s.requestStats with failedRequests := s.requestStats.failedRequests + 1 } }
    { response := exhaustedMsg, state := s1, attempts := attempts }

def proxyLoop (upstream : Nat → Except String String) (times : Nat → MoTime)
    (mkMsg : Nat → String → String) (exhaustedMsg : String) (cacheKey : String)
    (attempts : Nat) (lastError : Option ErrorEntry) (s : ProxyState) :
    ProxyCallResult :=
  if attempts ≤ retryLimit then
    match upstream attempts with
    | .ok response =>
      { response := response
        state := proxySuccessState cacheKey response (times attempts) s
        attempts := attempts + 1 }
    | .error m =>
      let errorMessage := mkMsg attempts m
      let errorEntry : ErrorEntry := { timestamp := times attempts, message := errorMessage }
      proxyLoop upstream times mkMsg exhaustedMsg cacheKey (attempts + 1) (some errorEntry)
        (proxyFailureState (times attempts) errorMessage s)
  else proxyExhausted exhaustedMsg lastError s attempts
termination_by retryLimit + 1 - attempts

def getAttemptMsg (attempts : Nat) (m : String) : String :=
  "HTTP GET attempt " ++ toString attempts ++ " failed: " ++ m

def postAttemptMsg (attempts : Nat) (m : String) : String :=
  "POST attempt " ++ toString attempts ++ " failed: " ++ m

/-- proxyExternalApiGet (main.mo lines 271-330): cache lookup under key
"GET:" # url, served when still valid, otherwise the retry loop. -/
def proxyExternalApiGet (upstream : Nat → Except String String) (now : MoTime)
    (times : Nat → MoTime) (url : String) (s : ProxyState) : ProxyCallResult :=
  let cacheKey := "GET:" ++ url
  let run := proxyLoop upstream times getAttemptMsg
    "Error: Unexpected error in proxyExternalApiGet: GET request failed after retries"
    cacheKey 0 none s
  match List.lookup cacheKey s.apiCache with
  | some entry =>
    if isCacheValid now entry then { response := entry.data, state := s, attempts := 0 }
    else run
  | none => run

/-- proxyExternalApiPost (main.mo lines 334-393): cache key
"POST:" # url # ":" # body, otherwise identical structure. -/
def proxyExternalApiPost (upstream : Nat → Except String String) (now : MoTime)
    (times : Nat → MoTime) (url body : String) (s : ProxyState) : ProxyCallResult :=
  let cacheKey := "POST:" ++ url ++ ":" ++ body
  let run := proxyLoop upstream times postAttemptMsg
    "Error: post failed after retries" cacheKey 0 none s
  match List.lookup cacheKey s.apiCache with
  | some entry =>
    if isCacheValid now entry then { response := entry.data, state := s, attempts := 0 }
    else run
  | none => run

/-- There is no valid cached entry under `key`: the call will go upstream. -/
def cacheMiss (now : MoTime) (key : String) (s : ProxyState) : Prop :=
  ∀ entry, List.lookup key s.apiCache = some entry → isCacheValid now entry = false

/-! Backend read-only diagnostics (main.mo lines 409-469).  The caller is
abstracted to its admin bit; `Runtime.trap` becomes `Except.error`.  The
source of getCachedData and getCacheTimeRemaining contains no permission
check ("Any user including guests" per their comments), while getErrorLog
and getCacheContents trap for non-admin callers. -/

def getErrorLog (isAdmin : Bool) (s : ProxyState) :
    Except String (List (MoTime × String)) :=
  if !isAdmin then .error "Unauthorized: Only admins can view error logs"
  else .ok (s.errorLog.map (fun e => (e.2.timestamp, e.2.message)))

def getCacheContents (isAdmin : Bool) (now : MoTime) (s : ProxyState) :
    Except String (List (String × String × MoTime)) :=
  if !isAdmin then .error "Unauthorized: Only admins can view cache contents"
  else .ok (s.apiCache.map (fun e => (e.1, e.2.data, now)))

def getRequestStats (_isAdmin : Bool) (s : ProxyState) :
    Except String (Nat × Nat × Nat) :=
  .ok (s.requestStats.totalRequests, s.requestStats.successfulRequests,
    s.requestStats.failedRequests)

def getCacheExpiration (_isAdmin : Bool) : Except String Int :=
  .ok cacheValidity

def getCachedData (_isAdmin : Bool) (now : MoTime) (key : String) (s : ProxyState) :
    Except String (Option String) :=
  .ok (match List.lookup key s.apiCache with
    | some entry => if now - entry.timestamp < cacheValidity then some entry.data else none
    | none => none)

def getCacheTimeRemaining (_isAdmin : Bool) (now : MoTime) (key : String)
    (s : ProxyState) : Except String MoTime :=
  .ok (match List.lookup key s.apiCache with
    | some entry =>
      let remaining := cacheValidity - (now - entry.timestamp)
      if 0 < remaining then remaining else 0
    | none => 0)

/-- A sequence of logError calls, oldest first. -/
def runLogErrors (calls : List (MoTime × String)) (s : ProxyState) : ProxyState :=
  calls.foldl (fun st c => logError c.1 c.2 st) s

/-- 101 consecutive writes one nanosecond apart. -/
def overflowCalls : List (MoTime × String) :=
  (List.range 101).map (fun i => ((i : Int), "upstream failure"))

/-! Theorems for the backend claims. -/

set_option maxRecDepth 10000 in
/-- C6.  The claim says every sequence of logError calls leaves at most
100 entries in the log.  The code checks `logCounter` (total writes ever)
instead of the log size, and its eviction removes the key of `entries[0]`
only when some entry has a strictly smaller timestamp than `entries[0]` -
impossible when timestamps are non-decreasing, since `entries[0]` is the
oldest insertion.  Hence 101 writes one nanosecond apart, all far inside
the 24-hour window, leave 101 entries in the log. -/
theorem logError_capacity_violated :
    (runLogErrors overflowCalls initialProxyState).errorLog.length = 101 ∧
      maxLogEntries = 100 := by
  constructor
  · decide
  · rfl

/-- C7 counterexample.  The claim says getCachedData and
getCacheTimeRemaining fail for a caller without admin permission; in the
code neither has a permission check, so both succeed for a non-admin
caller on any state, here on the initial state. -/
theorem perKey_cache_reads_open_counterexample :
    getCachedData false 0 "GET:https://example.com" initialProxyState =
        Except.ok none ∧
      getCacheTimeRemaining false 0 "GET:https://example.com" initialProxyState =
        Except.ok 0 := by
  constructor <;> rfl

/-- C7 amended.  Among the read-only diagnostics only getErrorLog and
getCacheContents reject non-admin callers; getCachedData,
getCacheTimeRemaining, getCacheExpiration and getRequestStats succeed for
every caller. -/
theorem diagnostics_gating (s : ProxyState) (now : MoTime) (key : String)
    (isAdmin : Bool) :
    (∃ v, getCachedData isAdmin now key s = Except.ok v) ∧
      (∃ v, getCacheTimeRemaining isAdmin now key s = Except.ok v) ∧
      (∃ v, getCacheExpiration isAdmin = Except.ok v) ∧
      (∃ v, getRequestStats isAdmin s = Except.ok v) ∧
      getErrorLog false s =
        Except.error "Unauthorized: Only admins can view error logs" ∧
      getCacheContents false now s =
        Except.error "Unauthorized: Only admins can view cache contents" ∧
      (∃ v, getErrorLog true s = Except.ok v) ∧
      (∃ v, getCacheContents true now s = Except.ok v) := by
  refine ⟨⟨_, rfl⟩, ⟨_, rfl⟩, ⟨_, rfl⟩, ⟨_, rfl⟩, rfl, rfl, ⟨_, rfl⟩, ⟨_, rfl⟩⟩

lemma logError_apiCache (now : MoTime) (m : String) (s : ProxyState) :
    (logError now m s).apiCache = s.apiCache := by
  unfold logError clearErrorLog
  dsimp only
  split
  · split
    · rfl
    · split <;> rfl
  · rfl

lemma proxyFailureState_apiCache (now : MoTime) (m : String) (s : ProxyState) :
    (proxyFailureState now m s).apiCache = s.apiCache := by
  unfold proxyFailureState
  dsimp only
  split
  · exact logError_apiCache now m s
  · exact logError_apiCache now m s

lemma proxyLoop_exhausted (u : Nat → Except String String) (t : Nat → MoTime)
    (mk : Nat → String → String) (ex k : String) (a : Nat) (err : ErrorEntry)
    (s : ProxyState) (ha : ¬ a ≤ retryLimit) :
    proxyLoop u t mk ex k a (some err) s =
      { response := "Error: " ++ err.message, state := s, attempts := a } := by
  rw [proxyLoop.eq_def]
  simp [ha, proxyExhausted]

lemma proxyLoop_error_step (u : Nat → Except String String) (t : Nat → MoTime)
    (mk : Nat → String → String) (ex k : String) (a : Nat) (m : String)
    (l : Option ErrorEntry) (s : ProxyState) (ha : a ≤ retryLimit)
    (hm : u a = .error m) :
    proxyLoop u t mk ex k a l s =
      proxyLoop u t mk ex k (a + 1) (some { timestamp := t a, message := mk a m })
        (proxyFailureState (t a) (mk a m) s) := by
  conv_lhs => rw [proxyLoop.eq_def]
  simp [ha, hm]

lemma proxyLoop_attempts_pos (u : Nat → Except String String) (t : Nat → MoTime)
    (mk : Nat → String → String) (ex k : String) :
    ∀ n a l s, retryLimit + 1 - a ≤ n → 1 ≤ a ∨ a ≤ retryLimit →
      1 ≤ (proxyLoop u t mk ex k a l s).attempts := by
  intro n
  induction n with
  | zero =>
    intro a l s hn hd
    have ha : ¬ a ≤ retryLimit := by omega
    rw [proxyLoop.eq_def]
    rcases l with _ | err
    · simp [ha, proxyExhausted]
      omega
    · simp [ha, proxyExhausted]
      omega
  | succ n ih =>
    intro a l s hn hd
    by_cases ha : a ≤ retryLimit
    · rcases hu : u a with m | r
      · rw [proxyLoop_error_step u t mk ex k a m l s ha hu]
        exact ih (a + 1) _ _ (by omega) (Or.inl (by omega))
      · rw [proxyLoop.eq_def]
        simp [ha, hu]
    · rw [proxyLoop.eq_def]
      rcases l with _ | err
      · simp [ha, proxyExhausted]
        omega
      · simp [ha, proxyExhausted]
        omega

lemma proxyLoop_allfail_apiCache (u : Nat → Except String String) (t : Nat → MoTime)
    (mk : Nat → String → String) (ex k : String) (e : Nat → String)
    (hfail : ∀ i, i ≤ retryLimit → u i = .error (e i)) :
    ∀ n a l s, retryLimit + 1 - a ≤ n →
      (proxyLoop u t mk ex k a l s).state.apiCache = s.apiCache := by
  intro n
  induction n with
  | zero =>
    intro a l s hn
    have ha : ¬ a ≤ retryLimit := by omega
    rw [proxyLoop.eq_def]
    rcases l with _ | err <;> simp [ha, proxyExhausted]
  | succ n ih =>
    intro a l s hn
    by_cases ha : a ≤ retryLimit
    · rw [proxyLoop_error_step u t mk ex k a (e a) l s ha (hfail a ha)]
      rw [ih (a + 1) _ _ (by omega)]
      exact proxyFailureState_apiCache _ _ _
    · rw [proxyLoop.eq_def]
      rcases l with _ | err <;> simp [ha, proxyExhausted]

lemma proxyGet_cacheMiss (u : Nat → Except String String) (now : MoTime)
    (t : Nat → MoTime) (url : String) (s : ProxyState)
    (h : cacheMiss now ("GET:" ++ url) s) :
    proxyExternalApiGet u now t url s =
      proxyLoop u t getAttemptMsg
        "Error: Unexpected error in proxyExternalApiGet: GET request failed after retries"
        ("GET:" ++ url) 0 none s := by
  unfold proxyExternalApiGet
  cases hl : List.lookup ("GET:" ++ url) s.apiCache with
  | none => simp [hl]
  | some entry => simp [hl, h entry hl]

lemma proxyPost_cacheMiss (u : Nat → Except String String) (now : MoTime)
    (t : Nat → MoTime) (url body : String) (s : ProxyState)
    (h : cacheMiss now ("POST:" ++ url ++ ":" ++ body) s) :
    proxyExternalApiPost u now t url body s =
      proxyLoop u t postAttemptMsg "Error: post failed after retries"
        ("POST:" ++ url ++ ":" ++ body) 0 none s := by
  unfold proxyExternalApiPost
  cases hl : List.lookup ("POST:" ++ url ++ ":" ++ body) s.apiCache with
  | none => simp [hl]
  | some entry => simp [hl, h entry hl]

lemma proxyLoop_allfail_run (u : Nat → Except String String) (t : Nat → MoTime)
    (mk : Nat → String → String) (ex k : String) (e : Nat → String)
    (hfail : ∀ i, i ≤ retryLimit → u i = .error (e i)) (s : ProxyState) :
    (proxyLoop u t mk ex k 0 none s).response = "Error: " ++ mk 2 (e 2) ∧
      (proxyLoop u t mk ex k 0 none s).attempts = 3 := by
  rw [proxyLoop_error_step u t mk ex k 0 (e 0) none s (by norm_num [retryLimit])
    (hfail 0 (by norm_num [retryLimit]))]
  rw [proxyLoop_error_step u t mk ex k 1 (e 1) _ _ (by norm_num [retryLimit])
    (hfail 1 (by norm_num [retryLimit]))]
  rw [proxyLoop_error_step u t mk ex k 2 (e 2) _ _ (by norm_num [retryLimit])
    (hfail 2 (by norm_num [retryLimit]))]
  rw [proxyLoop_exhausted u t mk ex k 3 _ _ (by norm_num [retryLimit])]
  exact ⟨rfl, rfl⟩

lemma error_marker_split (m : String) : "Error: " ++ m = "Error:" ++ (" " ++ m) := by
  have h : ("Error:" ++ " " : String) = "Error: " := by decide
  rw [← String.append_assoc, h]

/-- C1.  When there is no valid cache entry and every upstream attempt of
proxyExternalApiGet or proxyExternalApiPost fails, the call performs
exactly 3 attempts (1 initial + 2 retries, `attempts <= retryLimit` with
retryLimit = 2) and then returns normally - the model functions are total,
no trap is reachable on this path - with the sentinel string
"Error: " # lastError.message, which begins with the fixed marker
"Error:"; the caller receives the failure as data. -/
theorem proxy_exhaustion_sentinel (u : Nat → Except String String) (now : MoTime)
    (times : Nat → MoTime) (url body : String) (s : ProxyState) (e : Nat → String)
    (hG : cacheMiss now ("GET:" ++ url) s)
    (hP : cacheMiss now ("POST:" ++ url ++ ":" ++ body) s)
    (hfail : ∀ i, i ≤ retryLimit → u i = .error (e i)) :
    ((proxyExternalApiGet u now times url s).attempts = 3 ∧
      ∃ r, (proxyExternalApiGet u now times url s).response = "Error:" ++ r) ∧
      ((proxyExternalApiPost u now times url body s).attempts = 3 ∧
        ∃ r, (proxyExternalApiPost u now times url body s).response = "Error:" ++ r) := by
  rw [proxyGet_cacheMiss u now times url s hG,
    proxyPost_cacheMiss u now times url body s hP]
  obtain ⟨hg1, hg2⟩ := proxyLoop_allfail_run u times getAttemptMsg
    "Error: Unexpected error in proxyExternalApiGet: GET request failed after retries"
    ("GET:" ++ url) e hfail s
  obtain ⟨hp1, hp2⟩ := proxyLoop_allfail_run u times postAttemptMsg
    "Error: post failed after retries" ("POST:" ++ url ++ ":" ++ body) e hfail s
  exact ⟨⟨hg2, ⟨" " ++ getAttemptMsg 2 (e 2), by rw [hg1, error_marker_split]⟩⟩,
    ⟨hp2, ⟨" " ++ postAttemptMsg 2 (e 2), by rw [hp1, error_marker_split]⟩⟩⟩

/-- C1 witness: a concrete run in which all three GET attempts and all
three POST attempts fail with message "connection refused" on the empty
initial state. -/
theorem proxy_exhaustion_sentinel_witness :
    ((proxyExternalApiGet (fun _ => .error "connection refused") 0 (fun i => (i : Int))
          "https://example.com" initialProxyState).attempts = 3 ∧
      ∃ r, (proxyExternalApiGet (fun _ => .error "connection refused") 0 (fun i => (i : Int))
          "https://example.com" initialProxyState).response = "Error:" ++ r) ∧
      ((proxyExternalApiPost (fun _ => .error "connection refused") 0 (fun i => (i : Int))
            "https://example.com" "query" initialProxyState).attempts = 3 ∧
        ∃ r, (proxyExternalApiPost (fun _ => .error "connection refused") 0 (fun i => (i : Int))
            "https://example.com" "query" initialProxyState).response = "Error:" ++ r) :=
  proxy_exhaustion_sentinel (fun _ => .error "connection refused") 0 (fun i => (i : Int))
    "https://example.com" "query" initialProxyState (fun _ => "connection refused")
    (fun _ h => nomatch h) (fun _ h => nomatch h) (fun _ _ => rfl)

/-- C10.  A call of proxyExternalApiGet or proxyExternalApiPost in which
every upstream attempt fails leaves the apiCache unchanged (updateCache
runs only on the success path), so the sentinel result is never stored;
and a subsequent identical call on the resulting state issues at least one
upstream attempt instead of being served from the cache. -/
theorem proxy_failure_preserves_cache (u : Nat → Except String String) (now : MoTime)
    (times : Nat → MoTime) (url body : String) (s : ProxyState) (e : Nat → String)
    (hG : cacheMiss now ("GET:" ++ url) s)
    (hP : cacheMiss now ("POST:" ++ url ++ ":" ++ body) s)
    (hfail : ∀ i, i ≤ retryLimit → u i = .error (e i)) :
    (proxyExternalApiGet u now times url s).state.apiCache = s.apiCache ∧
      (proxyExternalApiPost u now times url body s).state.apiCache = s.apiCache ∧
      (∀ u2 t2, 1 ≤ (proxyExternalApiGet u2 now t2 url
        (proxyExternalApiGet u now times url s).state).attempts) ∧
      (∀ u2 t2, 1 ≤ (proxyExternalApiPost u2 now t2 url body
        (proxyExternalApiPost u now times url body s).state).attempts) := by
  rw [proxyGet_cacheMiss u now times url s hG,
    proxyPost_cacheMiss u now times url body s hP]
  have hgc : (proxyLoop u times getAttemptMsg
      "Error: Unexpected error in proxyExternalApiGet: GET request failed after retries"
      ("GET:" ++ url) 0 none s).state.apiCache = s.apiCache :=
    proxyLoop_allfail_apiCache u times getAttemptMsg _ _ e hfail (retryLimit + 1) 0 none s
      (by omega)
  have hpc : (proxyLoop u times postAttemptMsg "Error: post failed after retries"
      ("POST:" ++ url ++ ":" ++ body) 0 none s).state.apiCache = s.apiCache :=
    proxyLoop_allfail_apiCache u times postAttemptMsg _ _ e hfail (retryLimit + 1) 0 none s
      (by omega)
  refine ⟨hgc, hpc, ?_, ?_⟩
  · intro u2 t2
    have hG2 : cacheMiss now ("GET:" ++ url)
        (proxyLoop u times getAttemptMsg
          "Error: Unexpected error in proxyExternalApiGet: GET request failed after retries"
          ("GET:" ++ url) 0 none s).state := by
      intro entry hentry
      rw [hgc] at hentry
      exact hG entry hentry
    rw [proxyGet_cacheMiss u2 now t2 url _ hG2]
    exact proxyLoop_attempts_pos u2 t2 getAttemptMsg _ _ (retryLimit + 1) 0 none _
      (by omega) (Or.inr (by omega))
  · intro u2 t2
    have hP2 : cacheMiss now ("POST:" ++ url ++ ":" ++ body)
        (proxyLoop u times postAttemptMsg "Error: post failed after retries"
          ("POST:" ++ url ++ ":" ++ body) 0 none s).state := by
      intro entry hentry
      rw [hpc] at hentry
      exact hP entry hentry
    rw [proxyPost_cacheMiss u2 now t2 url body _ hP2]
    exact proxyLoop_attempts_pos u2 t2 postAttemptMsg _ _ (retryLimit + 1) 0 none _
      (by omega) (Or.inr (by omega))

/-- C10 witness: the concrete all-failing run of the C1 witness leaves the
empty cache empty for both methods, and the immediate identical calls go
upstream again. -/
theorem proxy_failure_preserves_cache_witness :
    (proxyExternalApiGet (fun _ => .error "connection refused") 0 (fun i => (i : Int))
        "https://example.com" initialProxyState).state.apiCache =
        initialProxyState.apiCache ∧
      (proxyExternalApiPost (fun _ => .error "connection refused") 0 (fun i => (i : Int))
          "https://example.com" "query" initialProxyState).state.apiCache =
        initialProxyState.apiCache ∧
      (∀ u2 t2, 1 ≤ (proxyExternalApiGet u2 0 t2 "https://example.com"
        (proxyExternalApiGet (fun _ => .error "connection refused") 0 (fun i => (i : Int))
          "https://example.com" initialProxyState).state).attempts) ∧
      (∀ u2 t2, 1 ≤ (proxyExternalApiPost u2 0 t2 "https://example.com" "query"
        (proxyExternalApiPost (fun _ => .error "connection refused") 0 (fun i => (i : Int))
          "https://example.com" "query" initialProxyState).state).attempts) :=
  proxy_failure_preserves_cache (fun _ => .error "connection refused") 0 (fun i => (i : Int))
    "https://example.com" "query" initialProxyState (fun _ => "connection refused")
    (fun _ h => nomatch h) (fun _ h => nomatch h) (fun _ _ => rfl)

/-! GeoAcquisition error handling, from the SearchSection component
(one-time acquisition chain).  The React state is modelled as a record;
the side effects of handleGeolocationError are modelled as the returned
follow-up action: requesting a low-accuracy fix, falling back to IP, or
nothing. -/

inductive GeolocationStage where
  | idle
  | requestingPermission
  | detectingGpsHigh
  | detectingGpsLow
  | fallbackIp
  | validating
  | success
  | failed
  | permissionDenied
  | notSecure
  | notSupported
deriving Repr, DecidableEq

inductive GeoLocationSource where
  | gps
  | ip
deriving Repr, DecidableEq

structure GeolocationComponentState where
  stage : GeolocationStage
  locationSource : Option GeoLocationSource
  coordinates : Option (Rat × Rat)
  city : Option String
  country : Option String
  errorMessage : Option String
  canRetry : Bool
deriving Repr, DecidableEq

/-- The initial component state (useState initialiser). -/
def initialGeoState : GeolocationComponentState :=
  { stage := .idle, locationSource := none, coordinates := none, city := none
    country := none, errorMessage := none, canRetry := true }

inductive GeoErrorCode where
  | permissionDenied
  | positionUnavailable
  | timeout
deriving Repr, DecidableEq

inductive GeoFollowUpAction where
  | none
  | requestLowAccuracyFix
  | fallbackToIP
deriving Repr, DecidableEq

/-- handleGeolocationError (SearchSection, part_006 lines 242-281).  On
PERMISSION_DENIED the state is replaced wholesale with the terminal
permission-denied state carrying canRetry := false, and no follow-up
request is issued; on any other error a high-accuracy failure moves to the
low-accuracy stage and requests a low-accuracy fix, and a low-accuracy
failure triggers the IP fallback. -/
def handleGeolocationError (prev : GeolocationComponentState) (code : GeoErrorCode)
    (isHighAccuracy : Bool) : GeolocationComponentState × GeoFollowUpAction :=
  if code = .permissionDenied then
    ({ stage := .permissionDenied, locationSource := none, coordinates := none
       city := none, country := none
       errorMessage := some "Location access was denied. Please enable location permissions in your browser settings or search by city name."
       canRetry := false }, .none)
  else if isHighAccuracy then
    ({ prev with stage := .detectingGpsLow }, .requestLowAccuracyFix)
  else (prev, .fallbackToIP)

/-- C8 counterexample.  The claim says a PERMISSION_DENIED failure puts
the machine in the permission-denied state with canRetry = true; the code
sets canRetry := false (so the retry affordances gated on canRetry are not
offered), here at the concrete initial state during the high-accuracy
attempt. -/
theorem permission_denied_canRetry_counterexample :
    (handleGeolocationError initialGeoState .permissionDenied true).1.canRetry ≠ true := by
  decide

/-- C8 amended.  Whenever a GPS attempt fails with PERMISSION_DENIED (at
either accuracy), the machine enters the terminal permission-denied state
with canRetry = false, and performs no automatic retry and no IP fallback
(the follow-up action is none). -/
theorem permission_denied_terminal (prev : GeolocationComponentState)
    (isHighAccuracy : Bool) :
    handleGeolocationError prev .permissionDenied isHighAccuracy =
      ({ stage := .permissionDenied, locationSource := none, coordinates := none
         city := none, country := none
         errorMessage := some "Location access was denied. Please enable location permissions in your browser settings or search by city name."
         canRetry := false }, .none) := by
  rfl

/-! Frontend places model: Restaurant (hooks/useQueries.ts lines 8-21) and
the merge/dedup library (lib/placesMerge.ts).  JavaScript || and ?? are
made explicit; the similarity score is a rational (its values are 1, 0,
0.8 or a Jaccard ratio), the haversine distance is a real number. -/

structure Restaurant where
  id : String
  name : String
  cuisine : String
  address : String
  city : String
  country : String
  latitude : Real
  longitude : Real
  rating : Option Real
  phone : Option String
  website : Option String
  distance : Option Real

/-- JavaScript `a || b` on strings: the empty string is falsy. -/
def jsOrString (a b : String) : String := if a = "" then b else a

/-- JavaScript `a || b` on numbers: 0 is falsy (NaN is not modelled). -/
noncomputable def jsOrNum (a b : Real) : Real := if a = 0 then b else a

/-- JavaScript `a || b` on optional strings: undefined and "" are falsy. -/
def jsOrOptString (a b : Option String) : Option String :=
  match a with
  | some s => if s = "" then b else some s
  | none => b

/-- JavaScript `a ?? b`. -/
def jsCoalesce {α : Type} (a b : Option α) : Option α :=
  match a with
  | some x => some x
  | none => b

/-- JavaScript `hay.includes(sub)`: substring containment. -/
def listContainsSub : List Char → List Char → Bool
  | [], sub => sub.isEmpty
  | hay@(_ :: t), sub => sub.isPrefixOf hay || listContainsSub t sub

def jsIncludes (hay sub : String) : Bool := listContainsSub hay.data sub.data

/-- JavaScript regex class \w (ASCII word characters). -/
def isWordChar (c : Char) : Bool := c.isAlphanum || c = '_'

/-- JavaScript regex class \s (the whitespace forms that matter here). -/
def isSpaceChar (c : Char) : Bool := c = ' ' || c = '\t' || c = '\n' || c = '\r'

/-- Replace every run of whitespace by a single space (replace(/\s+/g,' ')).
The flag records whether the previous character was part of a run. -/
def collapseSpaces : Bool → List Char → List Char
  | _, [] => []
  | prevSpace, c :: rest =>
    if isSpaceChar c then
      if prevSpace then collapseSpaces true rest
      else ' ' :: collapseSpaces true rest
    else c :: collapseSpaces false rest

def trimChars (l : List Char) : List Char :=
  ((l.dropWhile isSpaceChar).reverse.dropWhile isSpaceChar).reverse

/-- normalizeName (placesMerge.ts lines 6-12): lower-case, strip characters
outside \w and \s, collapse whitespace, trim. -/
def normalizeName (name : String) : String :=
  String.mk (trimChars (collapseSpaces false
    ((name.data.map Char.toLower).filter (fun c => isWordChar c || isSpaceChar c))))

/-- stringSimilarity (placesMerge.ts lines 17-36): 1 on equal normalized
names, 0 when either is empty, 0.8 on containment, otherwise the Jaccard
index of the character sets. -/
def stringSimilarity (str1 str2 : String) : Rat :=
  let s1 := normalizeName str1
  let s2 := normalizeName str2
  if s1 = s2 then 1
  else if s1.length = 0 || s2.length = 0 then 0
  else if jsIncludes s1 s2 || jsIncludes s2 s1 then 4 / 5
  else
    let chars1 := s1.data.toFinset
    let chars2 := s2.data.toFinset
    ((chars1 ∩ chars2).card : Rat) / ((chars1 ∪ chars2).card : Rat)

/-- JavaScript Math.atan2(y, x). -/
noncomputable def atan2 (y x : Real) : Real :=
  if 0 < x then Real.arctan (y / x)
  else if x < 0 then
    if 0 ≤ y then Real.arctan (y / x) + Real.pi else Real.arctan (y / x) - Real.pi
  else
    if 0 < y then Real.pi / 2
    else if y < 0 then -(Real.pi / 2)
    else 0

/-- calculateDistance (placesMerge.ts lines 41-54): haversine distance in
meters with Earth radius 6371e3. -/
noncomputable def calculateDistance (lat1 lon1 lat2 lon2 : Real) : Real :=
  let R : Real := 6371000
  let f1 := lat1 * Real.pi / 180
  let f2 := lat2 * Real.pi / 180
  let df := (lat2 - lat1) * Real.pi / 180
  let dl := (lon2 - lon1) * Real.pi / 180
  let a := Real.sin (df / 2) * Real.sin (df / 2) +
    Real.cos f1 * Real.cos f2 * (Real.sin (dl / 2) * Real.sin (dl / 2))
  let c := 2 * atan2 (Real.sqrt a) (Real.sqrt (1 - a))
  R * c

def NAME_SIMILARITY_THRESHOLD : Rat := 3 / 4

def PROXIMITY_THRESHOLD_METERS : Real := 50

/-- areDuplicates (placesMerge.ts lines 59-72).  The source returns false
early when the similarity is below the threshold and otherwise compares
the distance; as a proposition that is the conjunction below. -/
def areDuplicates (r1 r2 : Restaurant) : Prop :=
  ¬ (stringSimilarity r1.name r2.name < NAME_SIMILARITY_THRESHOLD) ∧
    calculateDistance r1.latitude r1.longitude r2.latitude r2.longitude ≤
      PROXIMITY_THRESHOLD_METERS

/-- mergeRestaurants (placesMerge.ts lines 77-92): keep the first record's
field unless it is falsy, then take the second's. -/
noncomputable def mergeRestaurants (r1 r2 : Restaurant) : Restaurant :=
  { id := jsOrString r1.id r2.id
    name := jsOrString r1.name r2.name
    cuisine := jsOrString r1.cuisine r2.cuisine
    address := jsOrString r1.address r2.address
    city := jsOrString r1.city r2.city
    country := jsOrString r1.country r2.country
    latitude := jsOrNum r1.latitude r2.latitude
    longitude := jsOrNum r1.longitude r2.longitude
    rating := jsCoalesce r1.rating r2.rating
    phone := jsOrOptString r1.phone r2.phone
    website := jsOrOptString r1.website r2.website
    distance := jsCoalesce r1.distance r2.distance }

open Classical in
/-- The inner loop of mergeAndDeduplicateRestaurants (lines 109-117): scan
the not-yet-consumed later elements left to right; on a match merge the
candidate into `current` and consume it, otherwise keep it for later
passes.  Returns the final `current` and the unconsumed remainder in
order. -/
noncomputable def absorbDuplicates (current : Restaurant) :
    List Restaurant → Restaurant × List Restaurant
  | [] => (current, [])
  | x :: xs =>
    if areDuplicates current x then absorbDuplicates (mergeRestaurants current x) xs
    else
      let r := absorbDuplicates current xs
      (r.1, x :: r.2)

lemma absorbDuplicates_length_le (current : Restaurant) (l : List Restaurant) :
    (absorbDuplicates current l).2.length ≤ l.length := by
  induction l generalizing current with
  | nil => simp [absorbDuplicates]
  | cons x xs ih =>
    rw [absorbDuplicates]
    split
    · exact le_trans (ih _) (by simp)
    · simpa using Nat.succ_le_succ (ih _)

open Classical in
/-- The outer loop of mergeAndDeduplicateRestaurants (lines 102-120): emit
each surviving `current` in order, continuing on the unconsumed rest. -/
noncomputable def dedupPass : List Restaurant → List Restaurant
  | [] => []
  | r :: rest =>
    let p := absorbDuplicates r rest
    p.1 :: dedupPass p.2
termination_by l => l.length
decreasing_by
  simp only [List.length_cons]
  exact Nat.lt_succ_of_le (absorbDuplicates_length_le _ _)

/-- mergeAndDeduplicateRestaurants (placesMerge.ts lines 97-123): flatten
all sources, then run the single left-to-right consuming pass. -/
noncomputable def mergeAndDeduplicateRestaurants
    (sources : List (List Restaurant)) : List Restaurant :=
  dedupPass sources.flatten

lemma stringSimilarity_self (s : String) : stringSimilarity s s = 1 := by
  simp [stringSimilarity]

lemma atan2_zero_one : atan2 0 1 = 0 := by
  rw [atan2]
  norm_num [Real.arctan_zero]

lemma calculateDistance_self (lat lon : Real) : calculateDistance lat lon lat lon = 0 := by
  unfold calculateDistance
  simp only [sub_self, zero_mul, zero_div, Real.sin_zero, mul_zero, zero_add,
    add_zero, Real.sqrt_zero, sub_zero, Real.sqrt_one, atan2_zero_one]

lemma areDuplicates_refl (r : Restaurant) : areDuplicates r r := by
  constructor
  · rw [stringSimilarity_self]
    norm_num [NAME_SIMILARITY_THRESHOLD]
  · rw [calculateDistance_self]
    norm_num [PROXIMITY_THRESHOLD_METERS]

lemma mergeRestaurants_self (r : Restaurant) : mergeRestaurants r r = r := by
  have hs : ∀ a : String, jsOrString a a = a := by
    intro a
    simp [jsOrString]
  have hn : ∀ a : Real, jsOrNum a a = a := by
    intro a
    simp [jsOrNum]
  have hc : ∀ {α : Type} (a : Option α), jsCoalesce a a = a := by
    intro α a
    cases a <;> rfl
  have ho : ∀ a : Option String, jsOrOptString a a = a := by
    intro a
    cases a with
    | none => rfl
    | some s => simp [jsOrOptString]
  simp [mergeRestaurants, hs, hn, hc, ho]

lemma absorbDuplicates_of_no_dup (c : Restaurant) (l : List Restaurant)
    (h : ∀ x ∈ l, ¬ areDuplicates c x) : absorbDuplicates c l = (c, l) := by
  induction l with
  | nil => simp [absorbDuplicates]
  | cons x xs ih =>
    rw [absorbDuplicates, if_neg (h x (by simp))]
    rw [ih (fun y hy => h y (by simp [hy]))]

lemma absorbDuplicates_append (c : Restaurant) (l1 l2 : List Restaurant)
    (h : ∀ x ∈ l1, ¬ areDuplicates c x) :
    absorbDuplicates c (l1 ++ l2) =
      ((absorbDuplicates c l2).1, l1 ++ (absorbDuplicates c l2).2) := by
  induction l1 with
  | nil => simp
  | cons x xs ih =>
    rw [List.cons_append, absorbDuplicates, if_neg (h x (by simp))]
    rw [ih (fun y hy => h y (by simp [hy]))]
    rfl

lemma dedupPass_of_no_dup (l : List Restaurant)
    (h : List.Pairwise (fun x y => ¬ areDuplicates x y) l) : dedupPass l = l := by
  induction l with
  | nil => simp [dedupPass]
  | cons r rest ih =>
    obtain ⟨hr, hrest⟩ := List.pairwise_cons.mp h
    rw [dedupPass, absorbDuplicates_of_no_dup r rest hr]
    simp [ih hrest]

lemma dedupPass_self_append (B : List Restaurant)
    (h : List.Pairwise (fun x y => ¬ areDuplicates x y ∧ ¬ areDuplicates y x) B) :
    dedupPass (B ++ B) = B := by
  induction B with
  | nil => simp [dedupPass]
  | cons b t ih =>
    obtain ⟨hb, ht⟩ := List.pairwise_cons.mp h
    have h1 : ∀ x ∈ t, ¬ areDuplicates b x := fun x hx => (hb x hx).1
    have hstep : absorbDuplicates b (t ++ b :: t) = (b, t ++ t) := by
      rw [absorbDuplicates_append b t (b :: t) h1]
      rw [absorbDuplicates, if_pos (areDuplicates_refl b), mergeRestaurants_self]
      rw [absorbDuplicates_of_no_dup b t h1]
    rw [show (b :: t) ++ b :: t = b :: (t ++ b :: t) from rfl]
    rw [dedupPass]
    simp only [hstep]
    rw [ih ht]

/-- C2.  For a batch B in which no two distinct entries are mutual
duplicates (name similarity at least 0.75 and haversine distance at most
50 meters), merging the batch with itself gives the same count as merging
it once: every element of the second copy is absorbed into its own first
occurrence (areDuplicates is reflexive and self-merge is the identity) and
nothing else matches. -/
theorem mergeAndDedup_self_count (B : List Restaurant)
    (h : ∀ i j : Fin B.length, i ≠ j → ¬ areDuplicates (B.get i) (B.get j)) :
    (mergeAndDeduplicateRestaurants [B, B]).length =
      (mergeAndDeduplicateRestaurants [B]).length := by
  have hp : List.Pairwise (fun x y => ¬ areDuplicates x y ∧ ¬ areDuplicates y x) B := by
    rw [List.pairwise_iff_getElem]
    intro i j hi hj hij
    have hne : (⟨i, hi⟩ : Fin B.length) ≠ ⟨j, hj⟩ := by
      simp only [ne_eq, Fin.mk.injEq]
      omega
    have hne' : (⟨j, hj⟩ : Fin B.length) ≠ ⟨i, hi⟩ := fun hh => hne hh.symm
    have e1 : B.get ⟨i, hi⟩ = B[i] := rfl
    have e2 : B.get ⟨j, hj⟩ = B[j] := rfl
    exact ⟨e1 ▸ e2 ▸ h ⟨i, hi⟩ ⟨j, hj⟩ hne, e2 ▸ e1 ▸ h ⟨j, hj⟩ ⟨i, hi⟩ hne'⟩
  have h1 : mergeAndDeduplicateRestaurants [B, B] = B := by
    unfold mergeAndDeduplicateRestaurants
    rw [show ([B, B] : List (List Restaurant)).flatten = B ++ B by simp]
    exact dedupPass_self_append B hp
  have h2 : mergeAndDeduplicateRestaurants [B] = B := by
    unfold mergeAndDeduplicateRestaurants
    rw [show ([B] : List (List Restaurant)).flatten = B by simp]
    exact dedupPass_of_no_dup B (hp.imp (fun hxy => hxy.1))
  rw [h1, h2]

def sampleRestaurant : Restaurant :=
  { id := "osm-node-1", name := "Al Madina Restaurant", cuisine := "Halal"
    address := "1 High Street", city := "London", country := "GB"
    latitude := 51, longitude := 0, rating := none, phone := none
    website := none, distance := none }

/-- C2 witness: the singleton batch trivially has no distinct mutual
duplicates, and merging it with itself keeps the count. -/
theorem mergeAndDedup_self_count_witness :
    (mergeAndDeduplicateRestaurants [[sampleRestaurant], [sampleRestaurant]]).length =
      (mergeAndDeduplicateRestaurants [[sampleRestaurant]]).length :=
  mergeAndDedup_self_count [sampleRestaurant] (fun i j hij => by
    refine absurd (Fin.ext ?_) hij
    have hi := i.isLt
    have hj := j.isLt
    simp only [List.length_cons, List.length_nil] at hi hj
    omega)

/-! sortByDistance (placesMerge.ts lines 130-151).  The source decorates
each place with its original index, sorts with a comparator and strips the
decoration.  The comparator is embedded as the real-valued function below;
the JavaScript sort (stable, ES2019) is modelled by mergeSort with the
relation "comparator result at most 0", which the index tie-break makes a
total order on distinct decorated entries. -/

noncomputable def compareByDistance (a b : Nat × Restaurant) : Real :=
  match a.2.distance, b.2.distance with
  | none, none => (a.1 : Real) - (b.1 : Real)
  | none, some _ => 1
  | some _, none => -1
  | some distA, some distB =>
    if distA = distB then (a.1 : Real) - (b.1 : Real) else distA - distB

open Classical in
noncomputable def sortLE (a b : Nat × Restaurant) : Bool :=
  decide (compareByDistance a b ≤ 0)

noncomputable def sortByDistance (restaurants : List Restaurant) : List Restaurant :=
  ((restaurants.enum).mergeSort sortLE).map Prod.snd

/-- The order the claim describes on decorated entries: defined distances
first in ascending order, undefined after every defined one, ties (equal
distances or both undefined) in original input order. -/
def distanceOrdered (a b : Nat × Restaurant) : Prop :=
  match a.2.distance, b.2.distance with
  | some da, some db => da < db ∨ (da = db ∧ a.1 < b.1)
  | some _, none => True
  | none, some _ => False
  | none, none => a.1 < b.1

lemma compareByDistance_trans (a b c : Nat × Restaurant)
    (h1 : compareByDistance a b ≤ 0) (h2 : compareByDistance b c ≤ 0) :
    compareByDistance a c ≤ 0 := by
  rcases ha : a.2.distance with _ | da <;> rcases hb : b.2.distance with _ | db <;>
    rcases hc : c.2.distance with _ | dc <;>
    simp only [compareByDistance, ha, hb, hc] at h1 h2 ⊢ <;>
    try linarith
  by_cases h12 : da = db <;> by_cases h23 : db = dc
  · rw [if_pos h12] at h1
    rw [if_pos h23] at h2
    rw [if_pos (h12.trans h23)]
    linarith
  · rw [if_pos h12] at h1
    rw [if_neg h23] at h2
    rw [if_neg (fun h => h23 (h12.symm.trans h))]
    linarith
  · rw [if_neg h12] at h1
    rw [if_pos h23] at h2
    rw [if_neg (fun h => h12 (h.trans h23.symm))]
    linarith
  · rw [if_neg h12] at h1
    rw [if_neg h23] at h2
    by_cases hac : da = dc
    · exfalso
      exact h12 (le_antisymm (by linarith) (by linarith))
    · rw [if_neg hac]
      linarith

lemma compareByDistance_total (a b : Nat × Restaurant) :
    compareByDistance a b ≤ 0 ∨ compareByDistance b a ≤ 0 := by
  rcases ha : a.2.distance with _ | da <;> rcases hb : b.2.distance with _ | db <;>
    simp only [compareByDistance, ha, hb]
  · rcases le_total (a.1 : Real) (b.1 : Real) with h | h
    · left
      linarith
    · right
      linarith
  · right
    norm_num
  · left
    norm_num
  · by_cases hd : da = db
    · rw [if_pos hd, if_pos hd.symm]
      rcases le_total (a.1 : Real) (b.1 : Real) with h | h
      · left
        linarith
      · right
        linarith
    · rw [if_neg hd, if_neg (fun hh => hd hh.symm)]
      rcases le_total da db with h | h
      · left
        linarith
      · right
        linarith

lemma sortLE_trans : ∀ a b c : Nat × Restaurant,
    sortLE a b = true → sortLE b c = true → sortLE a c = true := by
  intro a b c h1 h2
  rw [sortLE, decide_eq_true_eq] at h1 h2 ⊢
  exact compareByDistance_trans a b c h1 h2

lemma sortLE_total : ∀ a b : Nat × Restaurant, (sortLE a b || sortLE b a) = true := by
  intro a b
  simp only [sortLE, Bool.or_eq_true, decide_eq_true_eq]
  exact compareByDistance_total a b

lemma compareByDistance_le_imp_ordered (a b : Nat × Restaurant)
    (hle : compareByDistance a b ≤ 0) (hne : a.1 ≠ b.1) : distanceOrdered a b := by
  rcases ha : a.2.distance with _ | da <;> rcases hb : b.2.distance with _ | db <;>
    simp only [compareByDistance, ha, hb] at hle <;>
    simp only [distanceOrdered, ha, hb]
  · have hcast : (a.1 : Real) ≤ b.1 := by linarith
    have := Nat.cast_le.mp hcast
    omega
  · exact absurd hle (by norm_num)
  · by_cases hd : da = db
    · rw [if_pos hd] at hle
      right
      refine ⟨hd, ?_⟩
      have hcast : (a.1 : Real) ≤ b.1 := by linarith
      have := Nat.cast_le.mp hcast
      omega
    · rw [if_neg hd] at hle
      left
      exact lt_of_le_of_ne (by linarith) hd

/-- C5.  sortByDistance returns a permutation of its input; moreover the
decorated list it is read off from is a permutation of the index-decorated
input whose every earlier-later pair satisfies distanceOrdered: defined
distances come first in ascending order, undefined distances after all
defined ones, and equal distances (or two undefined ones) stay in original
input order. -/
theorem sortByDistance_spec (l : List Restaurant) :
    (sortByDistance l).Perm l ∧
      sortByDistance l = ((l.enum).mergeSort sortLE).map Prod.snd ∧
      ((l.enum).mergeSort sortLE).Perm l.enum ∧
      List.Pairwise distanceOrdered ((l.enum).mergeSort sortLE) := by
  have hperm : ((l.enum).mergeSort sortLE).Perm l.enum := List.mergeSort_perm _ _
  have hpermsnd : (sortByDistance l).Perm l := by
    have := hperm.map Prod.snd
    rw [List.enum_map_snd] at this
    exact this
  have hsorted : List.Pairwise (fun a b => sortLE a b = true)
      ((l.enum).mergeSort sortLE) :=
    List.sorted_mergeSort sortLE_trans sortLE_total l.enum
  have hnodup : ((l.enum).mergeSort sortLE).Pairwise (fun a b => a.1 ≠ b.1) := by
    have h1 : (List.map Prod.fst l.enum).Nodup := List.nodup_enum_map_fst l
    have h2 : (List.map Prod.fst ((l.enum).mergeSort sortLE)).Nodup :=
      ((hperm.map Prod.fst).symm).nodup h1
    exact List.pairwise_map.mp h2
  refine ⟨hpermsnd, rfl, hperm, ?_⟩
  refine (hsorted.and hnodup).imp ?_
  intro a b hab
  have hle : compareByDistance a b ≤ 0 := by
    have := hab.1
    rwa [sortLE, decide_eq_true_eq] at this
  exact compareByDistance_le_imp_ordered a b hle hab.2

/-! ClientRetryOrchestrator: executeWithRetry and getUserFriendlyError
(hooks/useQueries.ts lines 48-49, 61-149, 192-250).  A thrown JavaScript
value is either an Error with a message or some non-Error value; the
operation is a function from the attempt index to its outcome, and the run
is summarised by a trace: outcome (`Except.error` models the value thrown
out of executeWithRetry), number of operation invocations, the sleeps
performed before retries, and the safe-mode flag set by the final block. -/

def MAX_AUTO_RETRIES : Nat := 2

def RETRY_DELAY_MS : Nat := 2000

def MIN_RESULTS_THRESHOLD : Nat := 5

def MAX_RADIUS_METERS : Rat := 30000

inductive JsThrown where
  | errObj (message : String)
  | nonError
deriving Repr, DecidableEq

structure ErrorState where
  message : String
  isRetrying : Bool
  retryCount : Nat
  canRetry : Bool
  isAuthError : Bool
deriving Repr, DecidableEq

def toLowerString (s : String) : String := String.mk (s.data.map Char.toLower)

/-- getUserFriendlyError (useQueries.ts lines 61-149): keyword
classification over the lower-cased message of an Error; any non-Error
value classifies as the default retryable error. -/
def getUserFriendlyError (error : JsThrown) (retryCount : Nat) : ErrorState :=
  let defaultError : ErrorState :=
    { message := "Unable to search for restaurants at this time. Please try again."
      isRetrying := false, retryCount := retryCount, canRetry := true
      isAuthError := false }
  match error with
  | .nonError => defaultError
  | .errObj msg =>
    let message := toLowerString msg
    if jsIncludes message "unauthorized" || jsIncludes message "permission" ||
        jsIncludes message "forbidden" || jsIncludes message "access denied" then
      { message := "You need to be logged in to use this feature. Please log in and try again."
        isRetrying := false, retryCount := retryCount, canRetry := false
        isAuthError := true }
    else if jsIncludes message "only admins" || jsIncludes message "only users" ||
        jsIncludes message "admin only" then
      { message := "This feature requires special permissions. Please log in with an authorized account."
        isRetrying := false, retryCount := retryCount, canRetry := false
        isAuthError := true }
    else if jsIncludes message "canister" || jsIncludes message "stopped" ||
        jsIncludes message "ic0508" || jsIncludes message "trap" then
      { message :=
          if 0 < retryCount then
            "Service is recovering (attempt " ++ toString (retryCount + 1) ++ "/" ++
              toString (MAX_AUTO_RETRIES + 1) ++ "). Please wait..."
          else "The service is temporarily restarting. Retrying automatically..."
        isRetrying := true, retryCount := retryCount, canRetry := true
        isAuthError := false }
    else if jsIncludes message "replication" || jsIncludes message "reject" then
      { message := "Service is synchronizing. Retrying automatically..."
        isRetrying := true, retryCount := retryCount, canRetry := true
        isAuthError := false }
    else if jsIncludes message "network" || jsIncludes message "fetch" then
      { message := "Network connection issue detected. Please check your internet connection."
        isRetrying := false, retryCount := retryCount, canRetry := true
        isAuthError := false }
    else if jsIncludes message "timeout" || jsIncludes message "timed out" then
      { message := "Request timed out. Retrying..."
        isRetrying := true, retryCount := retryCount, canRetry := true
        isAuthError := false }
    else if jsIncludes message "rate limit" || jsIncludes message "too many requests" then
      { message := "Too many requests. Please wait a moment before trying again."
        isRetrying := false, retryCount := retryCount, canRetry := false
        isAuthError := false }
    else defaultError

structure RetryTrace (T : Type) where
  result : Except JsThrown T
  attempts : Nat
  delays : List Nat
  safeMode : Bool

/-- The code after the loop (useQueries.ts lines 236-249): reset the retry
state, classify the last error once more, possibly raise safe mode, and
rethrow the last error (`throw lastError` becomes `Except.error`). -/
def finalFailure (T : Type) (attempts : Nat) (delays : List Nat)
    (lastError : Option JsThrown) : RetryTrace T :=
  let le := lastError.getD .nonError
  let finalErrorState := getUserFriendlyError le MAX_AUTO_RETRIES
  { result := .error le, attempts := attempts, delays := delays
    safeMode := finalErrorState.isRetrying || jsIncludes finalErrorState.message "service" }

/-- The retry loop of executeWithRetry (useQueries.ts lines 196-234).
Before any attempt after the first it sleeps RETRY_DELAY_MS * attempt
(recorded in `delays`).  An auth-classified failure is rethrown at once; a
retryable failure below the retry cap continues the loop; otherwise -
canRetry false (break) or the cap reached (loop condition fails) - the
final block runs. -/
def executeWithRetryAux (T : Type) (operation : Nat → Except JsThrown T)
    (attempt : Nat) (delays : List Nat) (lastError : Option JsThrown) : RetryTrace T :=
  if attempt ≤ MAX_AUTO_RETRIES then
    let delays1 := if 0 < attempt then delays ++ [RETRY_DELAY_MS * attempt] else delays
    match operation attempt with
    | .ok v =>
      { result := .ok v, attempts := attempt + 1, delays := delays1, safeMode := false }
    | .error err =>
      let errorState := getUserFriendlyError err attempt
      if errorState.isAuthError then
        { result := .error err, attempts := attempt + 1, delays := delays1
          safeMode := false }
      else if attempt < MAX_AUTO_RETRIES ∧ errorState.canRetry = true then
        executeWithRetryAux T operation (attempt + 1) delays1 (some err)
      else finalFailure T (attempt + 1) delays1 (some err)
  else finalFailure T attempt delays lastError
termination_by MAX_AUTO_RETRIES + 1 - attempt

def executeWithRetry (T : Type) (operation : Nat → Except JsThrown T) : RetryTrace T :=
  executeWithRetryAux T operation 0 [] none

lemma executeWithRetry_allfail (T : Type) (op : Nat → Except JsThrown T)
    (e : Nat → JsThrown)
    (hfail : ∀ i, i ≤ MAX_AUTO_RETRIES → op i = .error (e i))
    (hauth : ∀ i, i ≤ MAX_AUTO_RETRIES →
      (getUserFriendlyError (e i) i).isAuthError = false)
    (hretry : ∀ i, i ≤ MAX_AUTO_RETRIES →
      (getUserFriendlyError (e i) i).canRetry = true) :
    executeWithRetry T op = finalFailure T 3 [2000, 4000] (some (e 2)) := by
  have h0 := hfail 0 (by norm_num [MAX_AUTO_RETRIES])
  have h1 := hfail 1 (by norm_num [MAX_AUTO_RETRIES])
  have h2 := hfail 2 (by norm_num [MAX_AUTO_RETRIES])
  have ha0 := hauth 0 (by norm_num [MAX_AUTO_RETRIES])
  have ha1 := hauth 1 (by norm_num [MAX_AUTO_RETRIES])
  have ha2 := hauth 2 (by norm_num [MAX_AUTO_RETRIES])
  have hc0 := hretry 0 (by norm_num [MAX_AUTO_RETRIES])
  have hc1 := hretry 1 (by norm_num [MAX_AUTO_RETRIES])
  have hc2 := hretry 2 (by norm_num [MAX_AUTO_RETRIES])
  rw [executeWithRetry]
  rw [executeWithRetryAux.eq_def]
  simp only [h0, ha0, hc0, MAX_AUTO_RETRIES, RETRY_DELAY_MS]
  norm_num
  rw [executeWithRetryAux.eq_def]
  simp only [h1, ha1, hc1, MAX_AUTO_RETRIES, RETRY_DELAY_MS]
  norm_num
  rw [executeWithRetryAux.eq_def]
  simp only [h2, ha2, hc2, MAX_AUTO_RETRIES, RETRY_DELAY_MS]
  norm_num

/-- C3 counterexample.  The claim says an operation failing on every
invocation with a retryable error "ends in a reported failure, never
throwing past the boundary"; executeWithRetry ends with `throw lastError`
(useQueries.ts line 249), so the concrete always-timeout operation makes
the call end with the last error thrown to the caller - the trace result
is the thrown value, not a normal return. -/
theorem executeWithRetry_rethrows_counterexample :
    (executeWithRetry Unit (fun _ => .error (.errObj "timeout"))).result =
      Except.error (JsThrown.errObj "timeout") ∧
      (executeWithRetry Unit (fun _ => .error (.errObj "timeout"))).attempts = 3 := by
  rw [executeWithRetry_allfail Unit _ (fun _ => JsThrown.errObj "timeout")
    (fun _ _ => rfl) (fun _ _ => rfl) (fun _ _ => rfl)]
  exact ⟨rfl, rfl⟩

/-- C3 amended.  For every operation failing on every invocation with a
retryable (non-auth, non-rate-limited per the classifier) error,
executeWithRetry attempts it exactly MAX_AUTO_RETRIES + 1 = 3 times,
sleeps attempt * 2000 ms before attempts 2 and 3 (delays [2000, 4000]),
and ends by rethrowing the last error to the caller after resetting the
retry state and evaluating safe mode - the failure is reported by the
rethrow, not by a normal return. -/
theorem executeWithRetry_retryable_exhaustion (T : Type)
    (op : Nat → Except JsThrown T) (e : Nat → JsThrown)
    (hfail : ∀ i, i ≤ MAX_AUTO_RETRIES → op i = .error (e i))
    (hauth : ∀ i, i ≤ MAX_AUTO_RETRIES →
      (getUserFriendlyError (e i) i).isAuthError = false)
    (hretry : ∀ i, i ≤ MAX_AUTO_RETRIES →
      (getUserFriendlyError (e i) i).canRetry = true) :
    (executeWithRetry T op).attempts = 3 ∧
      (executeWithRetry T op).delays = [2000, 4000] ∧
      (executeWithRetry T op).result = Except.error (e 2) := by
  rw [executeWithRetry_allfail T op e hfail hauth hretry]
  exact ⟨rfl, rfl, rfl⟩

/-- C3 witness: the always-failing network-error operation is retryable
and non-auth, and the amended theorem applies to it. -/
theorem executeWithRetry_retryable_exhaustion_witness :
    (executeWithRetry Unit (fun _ => .error (.errObj "failed to fetch"))).attempts = 3 ∧
      (executeWithRetry Unit (fun _ => .error (.errObj "failed to fetch"))).delays =
        [2000, 4000] ∧
      (executeWithRetry Unit (fun _ => .error (.errObj "failed to fetch"))).result =
        Except.error (JsThrown.errObj "failed to fetch") :=
  executeWithRetry_retryable_exhaustion Unit _ (fun _ => JsThrown.errObj "failed to fetch")
    (fun _ _ => rfl) (fun _ _ => rfl) (fun _ _ => rfl)

/-! RadiusExpansionController: searchWithRadiusExpansion (useQueries.ts
lines 355-407).  The two provider fetches are parameters mapping a radius
to a batch; the run is summarised by the trace of (radius queried, result
count after that tier's merge) together with the final accumulator. -/

def radiiList (initialRadius : Rat) : List Rat :=
  [initialRadius] ++ (if initialRadius < 20000 then [20000] else []) ++
    (if initialRadius < MAX_RADIUS_METERS then [MAX_RADIUS_METERS] else [])

/-- The tier loop (lines 370-404): merge the providers' batches for the
current radius into the accumulator, stop when the threshold is met or the
tier list is exhausted, otherwise continue with the next radius. -/
noncomputable def searchSteps (fsq ovp : Rat → List Restaurant) :
    List Rat → List Restaurant → List (Rat × Nat) × List Restaurant
  | [], acc => ([], acc)
  | r :: rest, acc =>
    let newMerged := mergeAndDeduplicateRestaurants [acc, fsq r, ovp r]
    if MIN_RESULTS_THRESHOLD ≤ newMerged.length then
      ([(r, newMerged.length)], newMerged)
    else if rest = [] then ([(r, newMerged.length)], newMerged)
    else
      let next := searchSteps fsq ovp rest newMerged
      ((r, newMerged.length) :: next.1, next.2)

noncomputable def searchWithRadiusExpansion (fsq ovp : Rat → List Restaurant)
    (initialRadius : Rat) : List (Rat × Nat) × List Restaurant :=
  searchSteps fsq ovp (radiiList initialRadius) []

lemma searchSteps_spec (fsq ovp : Rat → List Restaurant) :
    ∀ (radii : List Rat) (acc : List Restaurant), radii ≠ [] →
      (searchSteps fsq ovp radii acc).1 ≠ [] ∧
        ((searchSteps fsq ovp radii acc).1.map Prod.fst) <+: radii ∧
        (∀ p ∈ (searchSteps fsq ovp radii acc).1.dropLast,
          p.2 < MIN_RESULTS_THRESHOLD) ∧
        ((searchSteps fsq ovp radii acc).1.length < radii.length →
          ∃ p, (searchSteps fsq ovp radii acc).1.getLast? = some p ∧
            MIN_RESULTS_THRESHOLD ≤ p.2) := by
  intro radii
  induction radii with
  | nil => intro acc h; exact absurd rfl h
  | cons r rest ih =>
    intro acc _
    rw [searchSteps]
    by_cases hth : MIN_RESULTS_THRESHOLD ≤
        (mergeAndDeduplicateRestaurants [acc, fsq r, ovp r]).length
    · rw [if_pos hth]
      refine ⟨by simp, ⟨rest, by simp⟩, by simp, fun _ => ⟨_, rfl, hth⟩⟩
    · rw [if_neg hth]
      by_cases hrest : rest = []
      · rw [if_pos hrest]
        subst hrest
        exact ⟨by simp, ⟨[], by simp⟩, by simp, fun hlt => absurd hlt (by simp)⟩
      · rw [if_neg hrest]
        dsimp only
        obtain ⟨hne, ⟨t, ht⟩, hdrop, hlast⟩ :=
          ih (mergeAndDeduplicateRestaurants [acc, fsq r, ovp r]) hrest
        refine ⟨by simp, ⟨t, by simp [ht]⟩, ?_, ?_⟩
        · intro p hp
          rw [List.dropLast_cons_of_ne_nil hne] at hp
          rcases List.mem_cons.mp hp with h | h
          · subst h
            simpa using hth
          · exact hdrop p h
        · intro hlt
          simp only [List.length_cons, Nat.add_lt_add_iff_right] at hlt
          obtain ⟨p, hp1, hp2⟩ := hlast hlt
          refine ⟨p, ?_, hp2⟩
          rcases hsplit : (searchSteps fsq ovp rest
              (mergeAndDeduplicateRestaurants [acc, fsq r, ovp r])).1 with _ | ⟨q, qs⟩
          · exact absurd hsplit hne
          · rw [hsplit] at hp1
            rw [List.getLast?_cons_cons]
            exact hp1

lemma radiiList_chain (r : Rat) : List.Chain' (· < ·) (radiiList r) := by
  unfold radiiList MAX_RADIUS_METERS
  split_ifs with h1 h2
  · simp only [List.cons_append, List.nil_append, List.chain'_cons]
    exact ⟨h1, by norm_num, List.chain'_singleton _⟩
  · simp only [List.cons_append, List.append_nil, List.nil_append, List.chain'_cons]
    exact ⟨h1, List.chain'_singleton _⟩
  · simp only [List.cons_append, List.nil_append, List.chain'_cons]
    exact ⟨by linarith, List.chain'_singleton _⟩
  · simp

lemma radiiList_tail_le (r : Rat) : ∀ x ∈ (radiiList r).tail, x ≤ 30000 := by
  unfold radiiList MAX_RADIUS_METERS
  split_ifs <;> intro x hx <;> simp at hx
  · rcases hx with h | h <;> norm_num [h]
  · norm_num [hx]
  · norm_num [hx]

/-- C4 counterexample.  The claim says no queried radius ever exceeds
30000 m; with initialRadius = 40000 the tier list is just [40000] (no
expansion tier is appended since 40000 is below neither bound), so the
first and only queried radius is 40000 > 30000, here with providers that
return nothing. -/
theorem search_initial_radius_uncapped_counterexample :
    ((searchWithRadiusExpansion (fun _ => []) (fun _ => []) 40000).1.map Prod.fst =
        [40000]) ∧ ¬ ((40000 : Rat) ≤ 30000) := by
  constructor
  · have hr : radiiList 40000 = [40000] := by
      norm_num [radiiList, MAX_RADIUS_METERS]
    rw [searchWithRadiusExpansion, hr, searchSteps]
    have hm : mergeAndDeduplicateRestaurants
        ([[], (fun _ => ([] : List Restaurant)) 40000,
          (fun _ => ([] : List Restaurant)) 40000]) = [] := by
      simp [mergeAndDeduplicateRestaurants, dedupPass]
    simp [hm, MIN_RESULTS_THRESHOLD]
  · norm_num

/-- C4 amended.  searchWithRadiusExpansion queries a nonempty prefix of
the tier sequence [initialRadius] ++ (20000 when initialRadius < 20000) ++
(30000 when initialRadius < 30000), in strictly increasing order; every
queried tier after the first is at most 30000 m (only the initial radius
itself may exceed 30000); it continues past a tier only while the merged
accumulator holds fewer than 5 places, and it stops before the tier list
is exhausted only when the last merged accumulator reached 5 places. -/
theorem searchWithRadiusExpansion_tiers (fsq ovp : Rat → List Restaurant)
    (initialRadius : Rat) :
    (searchWithRadiusExpansion fsq ovp initialRadius).1 ≠ [] ∧
      ((searchWithRadiusExpansion fsq ovp initialRadius).1.map Prod.fst) <+:
        radiiList initialRadius ∧
      List.Chain' (· < ·)
        ((searchWithRadiusExpansion fsq ovp initialRadius).1.map Prod.fst) ∧
      (∀ p ∈ (searchWithRadiusExpansion fsq ovp initialRadius).1.tail,
        p.1 ≤ 30000) ∧
      (∀ p ∈ (searchWithRadiusExpansion fsq ovp initialRadius).1.dropLast,
        p.2 < MIN_RESULTS_THRESHOLD) ∧
      ((searchWithRadiusExpansion fsq ovp initialRadius).1.length <
          (radiiList initialRadius).length →
        ∃ p, (searchWithRadiusExpansion fsq ovp initialRadius).1.getLast? = some p ∧
          MIN_RESULTS_THRESHOLD ≤ p.2) := by
  unfold searchWithRadiusExpansion
  have hnil : radiiList initialRadius ≠ [] := by
    unfold radiiList
    simp
  obtain ⟨hne, hpre, hdrop, hlast⟩ :=
    searchSteps_spec fsq ovp (radiiList initialRadius) [] hnil
  refine ⟨hne, hpre, List.Chain'.prefix (radiiList_chain initialRadius) hpre, ?_,
    hdrop, hlast⟩
  intro p hp
  obtain ⟨t, ht⟩ := hpre
  have hmapne :
      (searchSteps fsq ovp (radiiList initialRadius) []).1.map Prod.fst ≠ [] := by
    simpa using hne
  have hmem : p.1 ∈ (radiiList initialRadius).tail := by
    rw [← ht, List.tail_append_of_ne_nil hmapne]
    refine List.mem_append.mpr (Or.inl ?_)
    rw [← List.map_tail]
    exact List.mem_map_of_mem Prod.fst hp
  exact radiiList_tail_le initialRadius p.1 hmem

/-! ProviderQueryEngine, tag-filter side: parseOverpassResponse
(lib/overpass.ts, unnamed part_002 lines 104-179).  Overpass elements are
nodes with direct coordinates or ways/relations with a computed center;
tags default to the empty object.  JavaScript truthiness governs both the
node coordinate check (`element.lat && element.lon`) and the final
`!lat || !lon` guard, so a coordinate equal to 0 is treated as absent. -/

structure OverpassTags where
  name : Option String := none
  addrStreet : Option String := none
  addrHousenumber : Option String := none
  addrCity : Option String := none
  addrCountry : Option String := none
  cuisine : Option String := none
  amenity : Option String := none
  shop : Option String := none

structure OverpassElement where
  type : String
  id : Int
  lat : Option Real := none
  lon : Option Real := none
  tags : Option OverpassTags := none
  center : Option (Real × Real) := none

structure OverpassResponse where
  elements : List OverpassElement

/-- JavaScript `a || b` for an optional string against a string default. -/
def jsOrOptStrDefault (a : Option String) (b : String) : String :=
  match a with
  | some s => if s = "" then b else s
  | none => b

/-- JavaScript truthiness of an optional string. -/
def truthyStr (a : Option String) : Bool :=
  match a with
  | some s => s ≠ ""
  | none => false

/-- JavaScript Math.round. -/
noncomputable def jsRound (x : Real) : Real := ((⌊x + 1 / 2⌋ : Int) : Real)

/-- haversineDistance (part_002 lines 181-199), the parser's own copy of
the haversine formula with Earth radius 6371000 m. -/
noncomputable def haversineDistance (lat1 lon1 lat2 lon2 : Real) : Real :=
  let R : Real := 6371000
  let f1 := lat1 * Real.pi / 180
  let f2 := lat2 * Real.pi / 180
  let df := (lat2 - lat1) * Real.pi / 180
  let dl := (lon2 - lon1) * Real.pi / 180
  let a := Real.sin (df / 2) * Real.sin (df / 2) +
    Real.cos f1 * Real.cos f2 * (Real.sin (dl / 2) * Real.sin (dl / 2))
  let c := 2 * atan2 (Real.sqrt a) (Real.sqrt (1 - a))
  R * c

open Classical in
/-- The per-element body of the parse loop (lines 115-176); `none` models
`continue`. -/
noncomputable def parseElement (searchLat searchLon : Real)
    (element : OverpassElement) : Option Restaurant :=
  let tags := element.tags.getD {}
  let name := jsOrOptStrDefault tags.name "Unnamed Place"
  let latlon : Option Real × Option Real :=
    if element.type = "node" then
      match element.lat, element.lon with
      | some a, some b => if a ≠ 0 ∧ b ≠ 0 then (some a, some b) else (none, none)
      | _, _ => (none, none)
    else if element.type = "way" ∨ element.type = "relation" then
      match element.center with
      | some c => (some c.1, some c.2)
      | none => (none, none)
    else (none, none)
  match latlon with
  | (some lat, some lon) =>
    if lat ≠ 0 ∧ lon ≠ 0 then
      let addressParts :=
        (if truthyStr tags.addrHousenumber then [tags.addrHousenumber.getD ""] else []) ++
          (if truthyStr tags.addrStreet then [tags.addrStreet.getD ""] else [])
      let address :=
        if addressParts.length ≠ 0 then String.intercalate " " addressParts
        else "Address not available"
      let cuisine :=
        if truthyStr tags.cuisine then tags.cuisine.getD ""
        else if tags.amenity = some "restaurant" ∨ tags.amenity = some "fast_food" ∨
            tags.amenity = some "cafe" then "Restaurant"
        else if tags.shop = some "butcher" then "Halal Butcher"
        else if tags.shop = some "halal" then "Halal Shop"
        else if tags.shop = some "supermarket" then "Halal Supermarket"
        else if truthyStr tags.shop then "Halal Shop"
        else "Halal"
      some
        { id := "osm-" ++ element.type ++ "-" ++ toString element.id
          name := name
          cuisine := cuisine
          address := address
          city := jsOrOptStrDefault tags.addrCity ""
          country := jsOrOptStrDefault tags.addrCountry ""
          latitude := lat
          longitude := lon
          rating := none
          phone := none
          website := none
          distance := some (jsRound (haversineDistance searchLat searchLon lat lon)) }
    else none
  | _ => none

noncomputable def parseOverpassResponse (response : OverpassResponse)
    (searchLat searchLon : Real) : List Restaurant :=
  response.elements.filterMap (parseElement searchLat searchLon)

/-- The coordinate pair an element would resolve to before the truthiness
guards: a node's own lat/lon, a way's or relation's center. -/
def rawResolvedCoord (e : OverpassElement) : Option (Real × Real) :=
  if e.type = "node" then
    match e.lat, e.lon with
    | some a, some b => some (a, b)
    | _, _ => none
  else if e.type = "way" ∨ e.type = "relation" then e.center
  else none

lemma parseElement_zero_coord (searchLat searchLon : Real) (e : OverpassElement)
    (a b : Real) (hraw : rawResolvedCoord e = some (a, b)) (hz : a = 0 ∨ b = 0) :
    parseElement searchLat searchLon e = none := by
  have hcond : ¬ (a ≠ 0 ∧ b ≠ 0) := by
    rcases hz with h | h <;> simp [h]
  unfold rawResolvedCoord at hraw
  unfold parseElement
  by_cases hn : e.type = "node"
  · rw [if_pos hn] at hraw
    rw [if_pos hn]
    rcases hlat : e.lat with _ | la <;> rcases hlon : e.lon with _ | lb <;>
      (try rw [hlat] at hraw) <;> (try rw [hlon] at hraw) <;> simp at hraw
    rw [hraw.1, hraw.2]
    dsimp only
    rw [if_neg hcond]
  · rw [if_neg hn] at hraw
    rw [if_neg hn]
    by_cases hw : e.type = "way" ∨ e.type = "relation"
    · rw [if_pos hw] at hraw
      rw [if_pos hw, hraw]
      dsimp only
      rw [if_neg hcond]
    · rw [if_neg hw] at hraw
      exact absurd hraw (by simp)

/-- C9.  parseOverpassResponse never emits an element whose resolved
latitude or longitude is exactly 0: inserting such an element (a node on
the equator or prime meridian, or a way/relation centered there) anywhere
into the response leaves the parsed output unchanged, even though 0 is a
valid coordinate value. -/
theorem parseOverpass_excludes_zero_coord (searchLat searchLon : Real)
    (pre post : List OverpassElement) (e : OverpassElement) (a b : Real)
    (hraw : rawResolvedCoord e = some (a, b)) (hz : a = 0 ∨ b = 0) :
    parseOverpassResponse ⟨pre ++ e :: post⟩ searchLat searchLon =
      parseOverpassResponse ⟨pre ++ post⟩ searchLat searchLon := by
  unfold parseOverpassResponse
  simp only [List.filterMap_append, List.filterMap_cons,
    parseElement_zero_coord searchLat searchLon e a b hraw hz]

/-- C9 witness: a node named element sitting exactly on the equator is
dropped - parsing the one-element response gives the same (empty) output
as parsing the empty response. -/
theorem parseOverpass_excludes_zero_coord_witness :
    parseOverpassResponse
        ⟨[{ type := "node", id := 7, lat := some 0, lon := some 5 }]⟩ 1 2 =
      parseOverpassResponse ⟨[]⟩ 1 2 :=
  parseOverpass_excludes_zero_coord 1 2 [] []
    { type := "node", id := 7, lat := some 0, lon := some 5 } 0 5 rfl (Or.inl rfl)
